import Mathlib

/-!
Shallow embedding of the concurrent network-diagnostics core in
`network-tool/network_diag.py` (ping sweep, TCP port scan, HTTP checker),
together with theorems settling the specification claims.

Strings manipulated by the Python code are embedded as `String` / `List Char`;
machine integers as `Nat` / `Int`; code that can raise an exception returns
`Except` / `Option`.  The nondeterministic completion order of the thread
pool's `as_completed` loop is made explicit as a parameter `order : List Nat`,
a permutation of the input positions: the loop body is applied to the futures
in that order.
-/

/-! ### Python string primitives -/

/-- Python `str.split(sep)` for a one-character separator, on the character
list of the string.  `"".split(",") = [""]`, `"a,b".split(",") = ["a","b"]`. -/
def pySplit (sep : Char) : List Char → List (List Char)
  | [] => [[]]
  | c :: cs =>
    match pySplit sep cs with
    | [] => [[]]
    | t :: ts => if c = sep then [] :: t :: ts else (c :: t) :: ts

/-- Python `str.split(sep, 1)` when the separator is known to occur:
the part before the first occurrence and the part after it. -/
def pySplitOnce (sep : Char) (l : List Char) : List Char × List Char :=
  (l.takeWhile (fun c => c ≠ sep), (l.dropWhile (fun c => c ≠ sep)).drop 1)

/-- Python `str.strip()`: remove leading and trailing whitespace. -/
def pyStrip (l : List Char) : List Char :=
  ((l.dropWhile Char.isWhitespace).reverse.dropWhile Char.isWhitespace).reverse

/-- Value of a list of decimal digit characters. -/
def digitsToNat (l : List Char) : Nat :=
  l.foldl (fun a c => a * 10 + (c.toNat - 48)) 0

/-- Python `int(str)` on sign-and-digit tokens: strips whitespace, accepts an
optional leading sign followed by at least one decimal digit, and raises
`ValueError` (here: `none`) otherwise. -/
def pyInt (l : List Char) : Option Int :=
  let t := pyStrip l
  match t with
  | '-' :: rest =>
    if !rest.isEmpty && rest.all Char.isDigit then some (-(digitsToNat rest : Int)) else none
  | '+' :: rest =>
    if !rest.isEmpty && rest.all Char.isDigit then some (digitsToNat rest : Int) else none
  | _ =>
    if !t.isEmpty && t.all Char.isDigit then some (digitsToNat t : Int) else none

/-- Python `range(a, b)` over integers, as the list `[a, a+1, ..., b-1]`. -/
def pyIntRange (a b : Int) : List Int :=
  (List.range (b - a).toNat).map (fun k : Nat => a + (k : Int))

/-- Python `range(a, b)` over naturals, as the list `[a, a+1, ..., b-1]`. -/
def pyNatRange (a b : Nat) : List Nat :=
  (List.range (b - a)).map (fun k => a + k)

/-! ### Port-list parser (`parse_ports`, network_diag.py lines 260-279) -/

/-- Insert an integer into a strictly sorted list, keeping it strictly
sorted; used to realize Python's `sorted(set(ports))`. -/
def insertUnique (x : Int) : List Int → List Int
  | [] => [x]
  | y :: ys =>
    if x < y then x :: y :: ys
    else if x = y then y :: ys
    else y :: insertUnique x ys

/-- Python `sorted(set(l))`: the strictly ascending list of the distinct
elements of `l`. -/
def sortedDedup (l : List Int) : List Int :=
  l.foldl (fun acc x => insertUnique x acc) []

/-- One non-empty, stripped comma-token of a port specification: either a
single integer or a `low-high` range whose endpoints are swapped when given
reversed (`if start > end: start, end = end, start`), per the body of the
`for` loop of `parse_ports`.  A non-numeric token raises `ValueError`. -/
def parsePortToken (t : List Char) : Except String (List Int) :=
  if t.contains '-' then
    match pyInt (pySplitOnce '-' t).1, pyInt (pySplitOnce '-' t).2 with
    | some a, some b =>
      if a > b then .ok (pyIntRange b (a + 1)) else .ok (pyIntRange a (b + 1))
    | _, _ => .error "invalid port"
  else
    match pyInt t with
    | some n => .ok [n]
    | none => .error "invalid port"

/-- The `for part in ports_str.split(",")` loop of `parse_ports`: strips each
token, skips empty ones, accumulates the parsed ports left to right, raising
at the first bad token. -/
def parsePortsTokens : List (List Char) → Except String (List Int)
  | [] => .ok []
  | part :: rest =>
    let t := pyStrip part
    if t.isEmpty then parsePortsTokens rest
    else
      match parsePortToken t with
      | .error e => .error e
      | .ok xs =>
        match parsePortsTokens rest with
        | .error e => .error e
        | .ok ys => .ok (xs ++ ys)

/-- Python `parse_ports(ports_str)`: split on commas, parse each token,
return `sorted(set(ports))`; a non-numeric token raises `ValueError`
(modelled as `.error`). -/
def parse_ports (s : String) : Except String (List Int) :=
  match parsePortsTokens (pySplit ',' s.toList) with
  | .error e => .error e
  | .ok ports => .ok (sortedDedup ports)

/-! ### Sortedness of `sortedDedup` -/

theorem insertUnique_sorted (x : Int) (l : List Int) (h : l.Sorted (· < ·)) :
    (insertUnique x l).Sorted (· < ·) := by
  induction l with
  | nil => simp [insertUnique]
  | cons y ys ih =>
    rw [List.sorted_cons] at h
    obtain ⟨hy, hys⟩ := h
    by_cases hxy : x < y
    · simp only [insertUnique, if_pos hxy, List.sorted_cons, List.mem_cons]
      refine ⟨?_, hy, hys⟩
      rintro b (rfl | hb)
      · exact hxy
      · exact hxy.trans (hy b hb)
    · by_cases hxe : x = y
      · simp only [insertUnique, if_neg hxy, if_pos hxe, List.sorted_cons]
        exact ⟨hy, hys⟩
      · have hyx : y < x := by omega
        simp only [insertUnique, if_neg hxy, if_neg hxe, List.sorted_cons]
        refine ⟨?_, ih hys⟩
        intro b hb
        have hmem : b = x ∨ b ∈ ys := by
          clear hy ih hys
          induction ys with
          | nil => simpa [insertUnique] using hb
          | cons z zs ihz =>
            simp only [insertUnique] at hb
            by_cases h1 : x < z
            · simp only [if_pos h1, List.mem_cons] at hb
              rcases hb with rfl | rfl | hb
              · exact Or.inl rfl
              · exact Or.inr (List.mem_cons_self ..)
              · exact Or.inr (List.mem_cons_of_mem _ hb)
            · by_cases h2 : x = z
              · simp only [if_neg h1, if_pos h2, List.mem_cons] at hb
                rcases hb with rfl | hb
                · exact Or.inr (List.mem_cons_self ..)
                · exact Or.inr (List.mem_cons_of_mem _ hb)
              · simp only [if_neg h1, if_neg h2, List.mem_cons] at hb
                rcases hb with rfl | hb
                · exact Or.inr (List.mem_cons_self ..)
                · rcases ihz hb with rfl | hm
                  · exact Or.inl rfl
                  · exact Or.inr (List.mem_cons_of_mem _ hm)
        rcases hmem with rfl | hm
        · exact hyx
        · exact hy b hm

theorem sortedDedup_sorted (l : List Int) : (sortedDedup l).Sorted (· < ·) := by
  have h : ∀ (l : List Int) (acc : List Int), acc.Sorted (· < ·) →
      (l.foldl (fun acc x => insertUnique x acc) acc).Sorted (· < ·) := by
    intro l
    induction l with
    | nil => intro acc h; simpa using h
    | cons x xs ih =>
      intro acc hacc
      exact ih _ (insertUnique_sorted x acc hacc)
  exact h l [] (by simp)

theorem sortedDedup_nodup (l : List Int) : (sortedDedup l).Nodup :=
  (sortedDedup_sorted l).imp (fun h => ne_of_lt h)

/-! ### Claims C5 and C10 about `parse_ports` -/

/-- C5: `parse_ports` splits on commas, ignores empty tokens, treats each
token as a single integer or an inclusive low-high range with reversed
endpoints auto-swapped, fails on a non-numeric token, and returns a
deduplicated ascending-sorted set; in particular
`parse_ports "22,80,1000-1002,1000" = [22, 80, 1000, 1001, 1002]` and
`parse_ports "80-22" = [22, ..., 80]`. -/
theorem C5_parse_ports :
    parse_ports "22,80,1000-1002,1000" = .ok [22, 80, 1000, 1001, 1002] ∧
    parse_ports "80-22" = .ok (pyIntRange 22 81) ∧
    parse_ports "22,,80" = .ok [22, 80] ∧
    parse_ports "22,abc" = .error "invalid port" ∧
    (∀ (s : String) (l : List Int), parse_ports s = .ok l →
      l.Sorted (· < ·) ∧ l.Nodup) := by
  refine ⟨rfl, rfl, rfl, rfl, ?_⟩
  intro s l h
  unfold parse_ports at h
  cases htok : parsePortsTokens (pySplit ',' s.toList) with
  | error e => rw [htok] at h; exact absurd h (by simp)
  | ok ports =>
    rw [htok] at h
    have hl : l = sortedDedup ports := by
      simpa using h.symm
    rw [hl]
    exact ⟨sortedDedup_sorted ports, sortedDedup_nodup ports⟩

/-- Witness for C5: the sortedness clause applied at the concrete
specification string `"22,80"`. -/
theorem C5_parse_ports_witness :
    ([22, 80] : List Int).Sorted (· < ·) ∧ ([22, 80] : List Int).Nodup :=
  C5_parse_ports.2.2.2.2 "22,80" [22, 80] rfl

/-- C10: `parse_ports` performs no bounds validation on port numbers: any
numeric token, including `0` and `99999` which lie outside the valid TCP
port range, is accepted and included in the returned set. -/
theorem C10_no_port_bounds :
    parse_ports "0,99999" = .ok [0, 99999] ∧
    parse_ports "70000" = .ok [70000] ∧
    (∀ (t : List Char) (n : Int), t.contains '-' = false → pyInt t = some n →
      parsePortToken t = .ok [n]) := by
  refine ⟨rfl, rfl, ?_⟩
  intro t n hdash hint
  unfold parsePortToken
  rw [hdash]
  simp [hint]

/-- Witness for C10: the general clause applied at the out-of-range token
`"99999"`. -/
theorem C10_no_port_bounds_witness :
    parsePortToken "99999".toList = .ok [99999] :=
  C10_no_port_bounds.2.2 "99999".toList 99999 rfl rfl

/-! ### CIDR expansion (`ping_sweep_cidr`, network_diag.py lines 90-123,
modelling the Python `ipaddress` library's dotted-quad parsing and
`IPv4Network.hosts()` semantics) -/

/-- One dotted-quad octet per the `ipaddress` parser: one to three decimal
digits, no leading zero, value at most 255. -/
def parseOctet (t : List Char) : Option Nat :=
  if !t.isEmpty && t.all Char.isDigit && t.length ≤ 3 &&
      (t.length == 1 || t.head? != some '0') then
    if digitsToNat t ≤ 255 then some (digitsToNat t) else none
  else none

/-- Dotted-quad IPv4 address parser: exactly four octets joined by dots,
returning the 32-bit value. -/
def parseIPv4 (l : List Char) : Option Nat :=
  match pySplit '.' l with
  | [a, b, c, d] => do
    let a ← parseOctet a
    let b ← parseOctet b
    let c ← parseOctet c
    let d ← parseOctet d
    some (a * 2 ^ 24 + b * 2 ^ 16 + c * 2 ^ 8 + d)
  | _ => none

/-- Prefix-length parser: decimal digits, value at most 32. -/
def parsePrefixLen (t : List Char) : Option Nat :=
  if !t.isEmpty && t.all Char.isDigit then
    if digitsToNat t ≤ 32 then some (digitsToNat t) else none
  else none

/-- Python `ipaddress.ip_network(cidr, strict=False)` on IPv4 literals:
`addr` or `addr/prefixlen`; an unparseable literal raises `ValueError`
(modelled as `none`). -/
def parse_ip_network (l : List Char) : Option (Nat × Nat) :=
  match pySplit '/' l with
  | [a] => (parseIPv4 a).map (fun ip => (ip, 32))
  | [a, p] => do
    let ip ← parseIPv4 a
    let pl ← parsePrefixLen p
    some (ip, pl)
  | _ => none

/-- Size of the address block of a prefix length. -/
def blockSize (p : Nat) : Nat := 2 ^ (32 - p)

/-- Network address of the block containing `addr` (`strict=False` masks the
host bits). -/
def networkOf (addr p : Nat) : Nat := addr / blockSize p * blockSize p

/-- Broadcast address of the block containing `addr`. -/
def broadcastOf (addr p : Nat) : Nat := networkOf addr p + blockSize p - 1

/-- Python `IPv4Network.hosts()`: all addresses strictly between network and
broadcast, except that a /31 yields both addresses and a /32 yields the
single address. -/
def hostsOfBlock (addr p : Nat) : List Nat :=
  if broadcastOf addr p - networkOf addr p ≤ 1 then
    pyNatRange (networkOf addr p) (broadcastOf addr p + 1)
  else
    pyNatRange (networkOf addr p + 1) (broadcastOf addr p)

/-- Python `str(IPv4Address(n))`: dotted-quad rendering. -/
def ipStr (n : Nat) : String :=
  toString (n / 2 ^ 24 % 256) ++ "." ++ toString (n / 2 ^ 16 % 256) ++ "." ++
    toString (n / 2 ^ 8 % 256) ++ "." ++ toString (n % 256)

/-- The `as_completed` collection loop shared by `ping_sweep_cidr`,
`ping_sweep_range` and `port_scan`: the futures complete in the order given
by `order` (a permutation of the input positions), and an item is appended
to the result exactly when its verdict is positive. -/
def collectArrivals {α : Type} (items : List α) (keep : α → Bool) (order : List Nat) : List α :=
  order.filterMap (fun i =>
    match items[i]? with
    | some x => if keep x then some x else none
    | none => none)

/-- Python `ping_sweep_cidr(cidr, ...)`: on a `ValueError` from
`ip_network` it logs and returns `[]` without dispatching any probe;
otherwise it probes every host of the block and collects the live ones in
completion order.  The first component is the list of dispatched probe
targets, the second the returned `live_hosts` list. -/
def ping_sweep_cidr_run (cidr : String) (up : String → Bool) (order : List Nat) :
    List String × List String :=
  match parse_ip_network cidr.toList with
  | none => ([], [])
  | some (ip, p) =>
    let hosts := (hostsOfBlock ip p).map ipStr
    (hosts, collectArrivals hosts up order)

/-! ### Helper lemmas about `pyNatRange` -/

theorem pyNatRange_length (a b : Nat) : (pyNatRange a b).length = b - a := by
  simp [pyNatRange]

theorem mem_pyNatRange {a b x : Nat} : x ∈ pyNatRange a b ↔ a ≤ x ∧ x < b := by
  simp only [pyNatRange, List.mem_map, List.mem_range]
  constructor
  · rintro ⟨k, hk, rfl⟩
    omega
  · rintro ⟨h1, h2⟩
    exact ⟨x - a, by omega, by omega⟩

theorem pyNatRange_sorted (a b : Nat) : (pyNatRange a b).Sorted (· < ·) :=
  List.Pairwise.map _ (fun i j h => by omega) (List.pairwise_lt_range _)

/-! ### Claims C4 and C6 about CIDR expansion -/

/-- Usable host count of a block, following the spec's words: standard
subnetting rules exclude the network and broadcast addresses, with the
RFC 3021 edge cases that a /31 has two usable addresses and a /32 one. -/
def usableHostCountSpec (p : Nat) : Nat :=
  if 31 ≤ p then 2 ^ (32 - p) else 2 ^ (32 - p) - 2

/-- C6: for every valid CIDR block, the expansion returns exactly
`usableHostCountSpec` addresses, each unique, each inside the block, in
ascending numeric order, with network and broadcast addresses excluded for
prefixes up to /30 (a /31 keeps both addresses and a /32 its single one). -/
theorem C6_expand_cidr (addr p : Nat) (hp : p ≤ 32) :
    (hostsOfBlock addr p).length = usableHostCountSpec p ∧
    (hostsOfBlock addr p).Sorted (· < ·) ∧
    (hostsOfBlock addr p).Nodup ∧
    (∀ x ∈ hostsOfBlock addr p, networkOf addr p ≤ x ∧ x ≤ broadcastOf addr p) ∧
    (p ≤ 30 → ∀ x ∈ hostsOfBlock addr p,
      x ≠ networkOf addr p ∧ x ≠ broadcastOf addr p) := by
  have hs1 : 0 < blockSize p := Nat.pow_pos (by omega)
  unfold hostsOfBlock broadcastOf usableHostCountSpec
  by_cases hb : networkOf addr p + blockSize p - 1 - networkOf addr p ≤ 1
  · have hs2 : blockSize p ≤ 2 := by omega
    have hp31 : 31 ≤ p := by
      by_contra hle
      have h2 : 2 ^ 2 ≤ 2 ^ (32 - p) := Nat.pow_le_pow_right (by omega) (by omega)
      unfold blockSize at hs2
      omega
    rw [if_pos hb, if_pos hp31]
    refine ⟨?_, pyNatRange_sorted _ _,
      (pyNatRange_sorted _ _).imp (fun h => ne_of_lt h), ?_, ?_⟩
    · rw [pyNatRange_length]
      unfold blockSize at hs2 hs1 ⊢
      omega
    · intro x hx
      rw [mem_pyNatRange] at hx
      omega
    · intro hp30
      exact absurd hp31 (by omega)
  · have hs3 : 3 ≤ blockSize p := by omega
    have hp30 : ¬ 31 ≤ p := by
      intro h31
      have h2 : 2 ^ (32 - p) ≤ 2 ^ 1 := Nat.pow_le_pow_right (by omega) (by omega)
      unfold blockSize at hs3
      omega
    rw [if_neg hb, if_neg hp30]
    refine ⟨?_, pyNatRange_sorted _ _,
      (pyNatRange_sorted _ _).imp (fun h => ne_of_lt h), ?_, ?_⟩
    · rw [pyNatRange_length]
      unfold blockSize at hs3 ⊢
      omega
    · intro x hx
      rw [mem_pyNatRange] at hx
      omega
    · intro _ x hx
      rw [mem_pyNatRange] at hx
      omega

/-- Witness for C6 at the concrete block 0.0.0.8/30. -/
theorem C6_expand_cidr_witness :
    (hostsOfBlock 8 30).length = usableHostCountSpec 30 ∧ (hostsOfBlock 8 30).Nodup :=
  ⟨(C6_expand_cidr 8 30 (by omega)).1, (C6_expand_cidr 8 30 (by omega)).2.2.1⟩

/-- C4 (amended): an unparseable CIDR makes `ping_sweep_cidr` log the
`ValueError` and return an empty live-host list without dispatching a single
probe; the invocation completes normally rather than failing with
`InvalidRange`. -/
theorem C4_invalid_cidr (cidr : String) (up : String → Bool) (order : List Nat)
    (h : parse_ip_network cidr.toList = none) :
    ping_sweep_cidr_run cidr up order = ([], []) := by
  unfold ping_sweep_cidr_run
  rw [h]

/-- Witness for C4 at the concrete unparseable literal `999.0.0.1/24`. -/
theorem C4_invalid_cidr_witness :
    ping_sweep_cidr_run "999.0.0.1/24" (fun _ => true) [] = ([], []) :=
  C4_invalid_cidr "999.0.0.1/24" (fun _ => true) [] rfl

/-- Counterexample for C4 as stated: the unparseable CIDR `999.0.0.1/24`
does not abort the invocation with an `InvalidRange` failure; the sweep
returns the ordinary value `([], [])` (no probe dispatched, empty live-host
list) and the caller proceeds normally. -/
theorem C4_counterexample :
    parse_ip_network "999.0.0.1/24".toList = none ∧
    ping_sweep_cidr_run "999.0.0.1/24" (fun _ => true) [0] = ([], []) :=
  ⟨rfl, rfl⟩

/-! ### Linear range sweep (`ping_sweep_range`, network_diag.py lines 126-159) -/

/-- Python `base_network.endswith(".")`. -/
def endsWithDot (l : List Char) : Bool := l.getLast? == some '.'

/-- The host list `[f"{base_network}{i}" for i in range(start, end + 1)]`
built by `ping_sweep_range`. -/
def expandLinearRange (base : String) (a b : Int) : List String :=
  (pyIntRange a (b + 1)).map (fun i => base ++ toString i)

/-- Python `ping_sweep_range(base_network, start, end, ...)`: `none` models
the early error return when the base does not end with a dot; otherwise the
pair of the dispatched host list and the collected `live_hosts` list. -/
def ping_sweep_range_run (base : String) (a b : Int) (up : String → Bool)
    (order : List Nat) : Option (List String × List String) :=
  if endsWithDot base.toList then
    some (expandLinearRange base a b,
      collectArrivals (expandLinearRange base a b) up order)
  else none

theorem pyIntRange_getElem? (a b : Int) (i : Nat) (h : i < (b - a).toNat) :
    (pyIntRange a b)[i]? = some (a + i) := by
  rw [pyIntRange, List.getElem?_map, List.getElem?_range h]
  rfl

theorem pyIntRange_sorted (a b : Int) : (pyIntRange a b).Sorted (· < ·) :=
  (List.pairwise_lt_range _).map _ (fun i j h => by omega)

/-- C3 (amended): for `start <= end` the range sweep enumerates exactly
`end - start + 1` host strings `prefix + i` with strictly ascending numeric
suffixes; for `start > end` the expansion is silently empty — the function
proceeds with zero targets instead of failing with `InvalidRange` (and it
does not auto-swap the endpoints). -/
theorem C3_linear_range (base : String) (a b : Int) :
    (pyIntRange a (b + 1)).Sorted (· < ·) ∧
    (a ≤ b →
      (expandLinearRange base a b).length = (b - a + 1).toNat ∧
      ∀ i, i < (b - a + 1).toNat →
        (expandLinearRange base a b)[i]? = some (base ++ toString (a + i))) ∧
    (b < a → expandLinearRange base a b = []) := by
  refine ⟨pyIntRange_sorted _ _, ?_, ?_⟩
  · intro _
    have he : b + 1 - a = b - a + 1 := by ring
    constructor
    · rw [expandLinearRange, List.length_map, pyIntRange, List.length_map,
        List.length_range, he]
    · intro i hi
      rw [expandLinearRange, List.getElem?_map, pyIntRange_getElem? a (b + 1) i (by omega)]
      rfl
  · intro hba
    have h0 : (b + 1 - a).toNat = 0 := by omega
    rw [expandLinearRange, pyIntRange, h0, List.range_zero, List.map_nil, List.map_nil]

/-- Witness for C3: the amended claim at `prefix = "p."`, both for the
ordinary range 1..3 and for the reversed range 2..1. -/
theorem C3_linear_range_witness :
    (expandLinearRange "p." 1 3).length = ((3 : Int) - 1 + 1).toNat ∧
    expandLinearRange "p." 2 1 = [] :=
  ⟨((C3_linear_range "p." 1 3).2.1 (by omega)).1,
    (C3_linear_range "p." 2 1).2.2 (by omega)⟩

/-- Counterexample for C3 as stated: with `start = 2 > 1 = end` the sweep
does not fail with `InvalidRange`; it returns the ordinary value
`some ([], [])` — a normally completed sweep over zero targets. -/
theorem C3_counterexample :
    ping_sweep_range_run "192.168.1." 2 1 (fun _ => true) [] = some ([], []) := rfl

/-! ### Claim C2: output ordering of the collection loops -/

/-- C2 (amended): over the same inputs and the same per-target verdicts, two
runs of the collection loop produce the same multiset of results — but only
as a permutation: the list order tracks the nondeterministic completion
order, which the code never re-sorts into input order. -/
theorem C2_arrival_multiset {α : Type} (items : List α) (keep : α → Bool)
    (o1 o2 : List Nat) (h1 : o1.Perm (List.range items.length))
    (h2 : o2.Perm (List.range items.length)) :
    (collectArrivals items keep o1).Perm (collectArrivals items keep o2) :=
  (h1.filterMap _).trans (h2.filterMap _).symm

/-- Witness for C2: two concrete completion orders over the port list
`[22, 80]` yield permutations of each other. -/
theorem C2_arrival_multiset_witness :
    (collectArrivals ([22, 80] : List Int) (fun _ => true) [0, 1]).Perm
      (collectArrivals ([22, 80] : List Int) (fun _ => true) [1, 0]) :=
  C2_arrival_multiset [22, 80] (fun _ => true) [0, 1] [1, 0] (by decide) (by decide)

/-- Counterexample for C2 as stated: both `[0, 1]` and `[1, 0]` are valid
completion orders of two targets, yet they make the ping-sweep collection
return differently ordered live-host lists, and make the port-scan
collection return `[80, 22]` — not ascending numeric order. -/
theorem C2_counterexample :
    List.Perm [0, 1] (List.range 2) ∧ List.Perm [1, 0] (List.range 2) ∧
    collectArrivals ["10.0.0.1", "10.0.0.2"] (fun _ => true) [0, 1] =
      ["10.0.0.1", "10.0.0.2"] ∧
    collectArrivals ["10.0.0.1", "10.0.0.2"] (fun _ => true) [1, 0] =
      ["10.0.0.2", "10.0.0.1"] ∧
    collectArrivals ([22, 80] : List Int) (fun _ => true) [1, 0] = [80, 22] :=
  ⟨by decide, by decide, rfl, rfl, rfl⟩

/-! ### Port scan (`port_scan` / `scan_port`, network_diag.py lines 164-210) -/

/-- Result of the `s.connect_ex((host, port))` call inside `scan_port`:
either an OS error code or an exception raised by the call. -/
inductive ConnectOutcome where
  | code (n : Int)
  | exn (msg : String)
deriving DecidableEq

/-- Python `scan_port(host, port, timeout)`: `socket.socket(...)` and
`s.settimeout(timeout)` run before the `try` block, so a fault there
propagates (`.error`); inside the `try`, a zero `connect_ex` code yields
`True`, any other code or any exception yields `False`. -/
def scan_port (create : Except String Unit) (connect : ConnectOutcome) :
    Except String Bool :=
  match create with
  | .error e => .error e
  | .ok _ =>
    match connect with
    | .code n => .ok (n == 0)
    | .exn _ => .ok false

/-- Python `port_scan(host, ports, ...)`: the hostname is resolved by the
single `socket.gethostbyname(host)` call; on `gaierror` the function logs
and returns `[]` (first component `none`); otherwise every port is probed
against the one resolved IP and the open ones are collected in completion
order. -/
def port_scan_run (resolve : String → Option String)
    (isOpen : String → Int → Bool) (host : String) (ports : List Int)
    (order : List Nat) : Option String × List Int :=
  match resolve host with
  | none => (none, [])
  | some ip => (some ip, collectArrivals ports (isOpen ip) order)

/-- C7 (amended): the hostname is resolved once per scan and every per-port
probe uses that single resolved IP — the scan result depends on `resolve`
only through its value at `host`; on resolution failure no per-port probe is
dispatched and the function returns an empty open-port list, which is the
very value an all-closed successful scan returns, not a distinguished
`ResolutionFailed` error. -/
theorem C7_single_resolution (resolve resolve2 : String → Option String)
    (isOpen : String → Int → Bool) (host : String) (ports : List Int)
    (order : List Nat) :
    (resolve host = none →
      port_scan_run resolve isOpen host ports order = (none, [])) ∧
    (∀ ip, resolve host = some ip →
      port_scan_run resolve isOpen host ports order =
        (some ip, collectArrivals ports (isOpen ip) order)) ∧
    (resolve host = resolve2 host →
      port_scan_run resolve isOpen host ports order =
        port_scan_run resolve2 isOpen host ports order) := by
  refine ⟨?_, ?_, ?_⟩
  · intro h
    rw [port_scan_run, h]
  · intro ip h
    rw [port_scan_run, h]
  · intro h
    rw [port_scan_run, h, port_scan_run]

/-- Witness for C7 at a failing and at a succeeding concrete resolver. -/
theorem C7_single_resolution_witness :
    port_scan_run (fun _ => none) (fun _ _ => true) "h" [22] [0] = (none, []) ∧
    port_scan_run (fun _ => some "1.2.3.4") (fun _ _ => true) "h" [22] [0] =
      (some "1.2.3.4", collectArrivals [22] ((fun _ _ => true : String → Int → Bool) "1.2.3.4") [0]) :=
  ⟨(C7_single_resolution (fun _ => none) (fun _ => none) (fun _ _ => true) "h" [22] [0]).1 rfl,
    (C7_single_resolution (fun _ => some "1.2.3.4") (fun _ => none) (fun _ _ => true)
      "h" [22] [0]).2.1 "1.2.3.4" rfl⟩

/-- Counterexample for C7 as stated: a scan whose resolution fails returns
the same caller-visible open-port list (`[]`) as a successful scan of the
same ports that found them all closed — the failure is logged but not
distinguished as a `ResolutionFailed` error in the result. -/
theorem C7_counterexample :
    (port_scan_run (fun _ => none) (fun _ _ => true) "h" [22] [0]).2 = [] ∧
    (port_scan_run (fun _ => some "1.2.3.4") (fun _ _ => false) "h" [22] [0]).2 = [] :=
  ⟨rfl, rfl⟩

/-- C9 (amended): once the socket has been created and its timeout set,
`scan_port` always returns a boolean: `True` exactly when `connect_ex`
returns code 0, `False` on any nonzero code or any exception raised by the
connection attempt; but a fault in socket creation or `settimeout` happens
before the `try` block and propagates to the caller. -/
theorem C9_scan_port_boundary :
    (∀ c, ∃ b, scan_port (.ok ()) c = .ok b) ∧
    (∀ n, scan_port (.ok ()) (.code n) = .ok true ↔ n = 0) ∧
    (∀ m, scan_port (.ok ()) (.exn m) = .ok false) ∧
    (∀ e c, scan_port (.error e) c = .error e) := by
  refine ⟨?_, ?_, fun m => rfl, fun e c => rfl⟩
  · intro c
    cases c with
    | code n => exact ⟨n == 0, rfl⟩
    | exn m => exact ⟨false, rfl⟩
  · intro n
    constructor
    · intro h
      have hb : (n == 0) = true := by
        simpa [scan_port] using h
      exact eq_of_beq hb
    · rintro rfl
      rfl

/-- Counterexample for C9 as stated: a fault during socket creation is not
converted to `False`; it propagates out of `scan_port`. -/
theorem C9_counterexample :
    scan_port (.error "socket creation failed") (.code 0) =
      .error "socket creation failed" :=
  rfl

/-! ### HTTP checker (`check_http_url` / `http_check`, network_diag.py
lines 215-255) -/

/-- Behaviour of `requests.get(url, timeout=timeout)` for one URL: a
response with a status code, a raised `requests.exceptions.RequestException`,
or some other unexpected exception. -/
inductive HttpResponse where
  | ok (status : Nat)
  | requestException (msg : String)
  | unexpected (msg : String)
deriving DecidableEq

/-- Python `check_http_url(url, timeout, logger)`: returns
`(url, accessible, status_code, error_message)`; only
`RequestException` is caught (yielding `(url, False, 0, str(e))`), any
other exception propagates (`.error`). -/
def check_http_url (url : String) (net : String → HttpResponse) :
    Except String (String × Bool × Nat × String) :=
  match net url with
  | .ok status => .ok (url, decide (status < 400), status, "")
  | .requestException msg => .ok (url, false, 0, msg)
  | .unexpected msg => .error msg

/-- Python `http_check(urls, ...)`: the `as_completed` loop appends
`future.result()` in completion order; when `future.result()` raises, the
exception is logged and the result for that URL is dropped. -/
def http_check (urls : List String) (net : String → HttpResponse)
    (order : List Nat) : List (String × Bool × Nat × String) :=
  order.filterMap (fun i =>
    (urls[i]?).bind (fun url => (check_http_url url net).toOption))

/-- The outcome tuple `check_http_url` produces when it does not raise. -/
def httpOutcome (net : String → HttpResponse) (url : String) :
    String × Bool × Nat × String :=
  match net url with
  | .ok status => (url, decide (status < 400), status, "")
  | .requestException msg => (url, false, 0, msg)
  | .unexpected msg => (url, false, 0, msg)

/-- Whether the probe of this URL raises a fault that is not a transport
error (not a `RequestException`). -/
def isUnexpected : HttpResponse → Bool
  | .unexpected _ => true
  | _ => false

theorem check_http_url_toOption (url : String) (net : String → HttpResponse)
    (h : isUnexpected (net url) = false) :
    (check_http_url url net).toOption = some (httpOutcome net url) := by
  cases hn : net url with
  | ok s => simp [check_http_url, httpOutcome, hn, Except.toOption]
  | requestException m => simp [check_http_url, httpOutcome, hn, Except.toOption]
  | unexpected m => simp [isUnexpected, hn] at h

theorem filterMap_range_getElem {α β : Type} (l : List α) (g : α → Option β) :
    (List.range l.length).filterMap (fun i => (l[i]?).bind g) = l.filterMap g := by
  induction l with
  | nil => rfl
  | cons x xs ih =>
    rw [List.length_cons, List.range_succ_eq_map, List.filterMap_cons,
      List.filterMap_map]
    have hcomp : ((fun i => ((x :: xs)[i]?).bind g) ∘ Nat.succ) =
        (fun i => (xs[i]?).bind g) := by
      funext i
      simp
    rw [hcomp, ih, List.filterMap_cons]
    cases hg : g x <;> simp [hg]

theorem filterMap_toOption_eq_map (urls : List String)
    (net : String → HttpResponse)
    (hok : ∀ u ∈ urls, isUnexpected (net u) = false) :
    urls.filterMap (fun u => (check_http_url u net).toOption) =
      urls.map (httpOutcome net) := by
  induction urls with
  | nil => rfl
  | cons u us ih =>
    rw [List.filterMap_cons,
      check_http_url_toOption u net (hok u (List.mem_cons_self ..)),
      List.map_cons, ih (fun v hv => hok v (List.mem_cons_of_mem _ hv))]

/-- C1 (amended): as long as every probe either returns normally or raises a
transport error — the two cases `check_http_url` converts into an outcome —
the engine hands back exactly N outcomes for N targets, the outcomes of the
input URLs in some completion order, none dropped and none duplicated.  A
probe fault that is not a transport error escapes `check_http_url`, and the
collection loop then logs it and drops that target's outcome, so the result
set can be shorter than N. -/
theorem C1_engine_outcomes (urls : List String) (net : String → HttpResponse)
    (order : List Nat) (hperm : order.Perm (List.range urls.length))
    (hok : ∀ u ∈ urls, isUnexpected (net u) = false) :
    (http_check urls net order).Perm (urls.map (httpOutcome net)) ∧
    (http_check urls net order).length = urls.length := by
  have h1 : (http_check urls net order).Perm
      ((List.range urls.length).filterMap (fun i =>
        (urls[i]?).bind (fun url => (check_http_url url net).toOption))) :=
    hperm.filterMap _
  have h2 := filterMap_range_getElem urls
    (fun u => (check_http_url u net).toOption)
  have h3 := filterMap_toOption_eq_map urls net hok
  have hp : (http_check urls net order).Perm (urls.map (httpOutcome net)) := by
    rw [h2, h3] at h1
    exact h1
  exact ⟨hp, by rw [hp.length_eq, List.length_map]⟩

/-- Witness for C1 at two URLs whose probes both return status 200, with
completion order reversed from input order. -/
theorem C1_engine_outcomes_witness :
    (http_check ["a", "b"] (fun _ => .ok 200) [1, 0]).Perm
      (["a", "b"].map (httpOutcome (fun _ => .ok 200))) ∧
    (http_check ["a", "b"] (fun _ => .ok 200) [1, 0]).length = 2 :=
  C1_engine_outcomes ["a", "b"] (fun _ => .ok 200) [1, 0] (by decide)
    (fun u hu => rfl)

/-- Counterexample for C1 as stated: a single-target list whose probe raises
a fault that is not a transport error yields an empty result set — the
target's outcome is silently dropped and the final result has 0, not N = 1,
entries. -/
theorem C1_counterexample :
    http_check ["a"] (fun _ => .unexpected "boom") [0] = [] ∧
    (["a"] : List String).length = 1 :=
  ⟨rfl, rfl⟩

/-- C8: whenever `check_http_url` returns an outcome, the outcome names the
probed URL; it is accessible exactly when a response arrived with a status
code below 400; it carries the raw status code of any arrived response, and
status 0 exactly when no response arrived; and on a transport failure it
carries the message describing the transport error.  (Real HTTP status
codes are at least 100, hence the `hvalid` hypothesis.) -/
theorem C8_http_probe (url : String) (net : String → HttpResponse)
    (hvalid : ∀ s, net url = .ok s → 100 ≤ s)
    (u : String) (acc : Bool) (st : Nat) (msg : String)
    (hres : check_http_url url net = .ok (u, acc, st, msg)) :
    u = url ∧
    (acc = true ↔ ∃ s, net url = .ok s ∧ s < 400) ∧
    (∀ s, net url = .ok s → st = s) ∧
    (st = 0 ↔ ∀ s, net url ≠ .ok s) ∧
    (∀ m, net url = .requestException m → msg = m) := by
  cases hn : net url with
  | ok s =>
    simp only [check_http_url, hn, Except.ok.injEq, Prod.mk.injEq] at hres
    obtain ⟨h1, h2, h3, h4⟩ := hres
    subst h1 h2 h3 h4
    have hs := hvalid s hn
    refine ⟨rfl, ?_, ?_, ?_, ?_⟩
    · simp [hn, decide_eq_true_iff]
    · simp [hn]
    · constructor
      · intro h0
        exact absurd h0 (by omega)
      · intro hall
        exact absurd rfl (hall s)
    · simp [hn]
  | requestException m =>
    simp only [check_http_url, hn, Except.ok.injEq, Prod.mk.injEq] at hres
    obtain ⟨h1, h2, h3, h4⟩ := hres
    subst h1 h2 h3 h4
    refine ⟨rfl, ?_, ?_, ?_, ?_⟩
    · simp [hn]
    · simp [hn]
    · simp [hn]
    · simp [hn]
  | unexpected m =>
    simp only [check_http_url, hn] at hres
    exact Except.noConfusion hres

/-- Witness for C8 at a probe answering status 200. -/
theorem C8_http_probe_witness :
    "u" = "u" ∧
    (true = true ↔ ∃ s, (fun _ : String => HttpResponse.ok 200) "u" = .ok s ∧ s < 400) :=
  ⟨(C8_http_probe "u" (fun _ => .ok 200)
      (fun s hs => by injection hs with h; omega) "u" true 200 "" rfl).1,
    (C8_http_probe "u" (fun _ => .ok 200)
      (fun s hs => by injection hs with h; omega) "u" true 200 "" rfl).2.1⟩
